import Mathlib

/-!
Verification of the synchronous JNI boundary layer of the OpenData LogDb
bindings (src/log/native/src/lib.rs).

The definitions below are a shallow embedding of that file.  Byte sequences
are lists of naturals (each byte below 256), 64-bit signed integers are
integers constrained to the i64 range where it matters, and the asynchronous
storage engine — an external collaborator — is abstracted as explicit
function parameters supplied to each entry point.
-/

/-- Size of the timestamp header prepended to values. -/
def TIMESTAMP_HEADER_SIZE : Nat := 8

/-- Big-endian byte decomposition of a natural number below 2 ^ 64, the bit
pattern layout produced by the Rust standard library for an i64. -/
def natToBeBytes8 (n : Nat) : List Nat :=
  [n / 2 ^ 56 % 256, n / 2 ^ 48 % 256, n / 2 ^ 40 % 256, n / 2 ^ 32 % 256,
   n / 2 ^ 24 % 256, n / 2 ^ 16 % 256, n / 2 ^ 8 % 256, n % 256]

/-- Semantics of the to_be_bytes call on an i64: the two's-complement bit
pattern of the integer written as eight big-endian bytes. -/
def i64_to_be_bytes (x : Int) : List Nat :=
  natToBeBytes8 (x % 2 ^ 64).toNat

/-- Recombination of big-endian bytes into a natural number. -/
def beBytesToNat (bs : List Nat) : Nat :=
  bs.foldl (fun acc b => acc * 256 + b) 0

/-- Semantics of the from_be_bytes call on eight bytes: read them as an
unsigned big-endian number and reinterpret the bit pattern in
two's complement. -/
def i64_from_be_bytes (bs : List Nat) : Int :=
  if beBytesToNat bs < 2 ^ 63 then (beBytesToNat bs : Int)
  else (beBytesToNat bs : Int) - 2 ^ 64

/-- Wrapping cast from i64 to u64 (the as-u64 conversion). -/
def i64_as_u64 (x : Int) : Nat := (x % 2 ^ 64).toNat

/-- Wrapping cast from i64 to usize on the 64-bit target (the as-usize
conversion applied to max_entries). -/
def i64_as_usize (x : Int) : Nat := (x % 2 ^ 64).toNat

/-- Embedding of copy_value_with_timestamp: the buffer holds the 8-byte
big-endian header of timestamp_ms followed by the payload copied out of the
Java byte array. -/
def copy_value_with_timestamp (timestamp_ms : Int) (value : List Nat) : List Nat :=
  i64_to_be_bytes timestamp_ms ++ value

/-- Embedding of extract_timestamp_and_payload: values shorter than the
header decode to timestamp 0 with the value unchanged; otherwise the first
eight bytes decode as a big-endian i64 and the rest is the payload. -/
def extract_timestamp_and_payload (value : List Nat) : Int × List Nat :=
  if value.length < TIMESTAMP_HEADER_SIZE then (0, value)
  else (i64_from_be_bytes (value.take TIMESTAMP_HEADER_SIZE),
        value.drop TIMESTAMP_HEADER_SIZE)

/-- Java exception classes thrown at the boundary: NullPointerException,
IllegalArgumentException and OpenDataNativeException. -/
inductive JavaError
  | nullPointer
  | illegalArgument (msg : String)
  | nativeError (msg : String)
  deriving DecidableEq

/-- Java-side Record object: key, value and the caller-captured timestamp. -/
structure JRecord where
  key : List Nat
  value : List Nat
  timestampMs : Int
  deriving DecidableEq

/-- Rust-side Record submitted to the engine. -/
structure Record where
  key : List Nat
  value : List Nat
  deriving DecidableEq

/-- Java-side AppendResult: the engine-assigned start sequence (relayed as
the same 64-bit value) and the first record's timestamp. -/
structure AppendResult where
  start_sequence : Nat
  timestamp_ms : Int
  deriving DecidableEq

/-- Engine log entry as yielded by a scan cursor. -/
structure LogEntry where
  sequence : Nat
  key : List Nat
  value : List Nat
  deriving DecidableEq

/-- Java-side LogEntry with the envelope decoded. -/
structure JLogEntry where
  sequence : Nat
  timestampMs : Int
  key : List Nat
  value : List Nat
  deriving DecidableEq

/-- Outcome of the handle guard at the top of a JNI entry point: either a
NullPointerException is thrown, or the raw jlong value is dereferenced as a
pointer to the boxed handle. -/
inductive HandleDispatch
  | throwNullPointer
  | unsafeDeref (addr : Int)
  deriving DecidableEq

/-- Handle guard at the top of the LogDb append entry point. -/
def appendHandleDispatch (handle : Int) : HandleDispatch :=
  if handle = 0 then .throwNullPointer else .unsafeDeref handle

/-- Handle guard at the top of the LogDb scan entry point. -/
def scanHandleDispatch (handle : Int) : HandleDispatch :=
  if handle = 0 then .throwNullPointer else .unsafeDeref handle

/-- Handle guard at the top of the LogDbReader scan entry point. -/
def readerScanHandleDispatch (handle : Int) : HandleDispatch :=
  if handle = 0 then .throwNullPointer else .unsafeDeref handle

/-- The batch of Rust records built by the marshalling loop of the append
entry point: each value is the record's own timestamp header followed by
that record's payload. -/
def rust_records (records : List JRecord) : List Record :=
  records.map fun r =>
    { key := r.key, value := copy_value_with_timestamp r.timestampMs r.value }

/-- Embedding of Java_dev_opendata_LogDb_nativeAppend.  The engine append is
abstracted as a function from the submitted batch to the assigned start
sequence or an engine error.  The boolean in the result records whether the
engine append was issued. -/
def Java_dev_opendata_LogDb_nativeAppend
    (engineAppend : List Record → Except String Nat)
    (handle : Int) (records : List JRecord) :
    Except JavaError AppendResult × Bool :=
  match appendHandleDispatch handle with
  | .throwNullPointer => (.error .nullPointer, false)
  | .unsafeDeref _ =>
    match records with
    | [] => (.error (.illegalArgument "Records array is empty"), false)
    | first :: _ =>
      match engineAppend (rust_records records) with
      | .ok start_sequence =>
          (.ok { start_sequence := start_sequence,
                 timestamp_ms := first.timestampMs }, true)
      | .error e => (.error (.nativeError e), true)

/-- Embedding of create_log_entry_array: each entry's envelope is decoded,
the header becoming the timestamp and the remainder the returned payload. -/
def create_log_entry_array (entries : List LogEntry) : List JLogEntry :=
  entries.map fun entry =>
    { sequence := entry.sequence
      timestampMs := (extract_timestamp_and_payload entry.value).1
      key := entry.key
      value := (extract_timestamp_and_payload entry.value).2 }

/-- The collection loop of the scan entry points: pull entries from the
cursor while fewer than max have been collected and the cursor is not
exhausted. -/
def scanLoop : Nat → List LogEntry → List LogEntry
  | 0, _ => []
  | _ + 1, [] => []
  | n + 1, entry :: rest => entry :: scanLoop n rest

/-- Embedding of Java_dev_opendata_LogDb_nativeScan.  The engine scan is
abstracted as a function from key and start sequence to the list of entries
its cursor yields in order (or an engine error); the boolean records whether
the engine was invoked. -/
def Java_dev_opendata_LogDb_nativeScan
    (engineScan : List Nat → Nat → Except String (List LogEntry))
    (handle : Int) (key : List Nat) (start_sequence max_entries : Int) :
    Except JavaError (List JLogEntry) × Bool :=
  match scanHandleDispatch handle with
  | .throwNullPointer => (.error .nullPointer, false)
  | .unsafeDeref _ =>
    match engineScan key (i64_as_u64 start_sequence) with
    | .error e => (.error (.nativeError e), true)
    | .ok cursor =>
        (.ok (create_log_entry_array (scanLoop (i64_as_usize max_entries) cursor)),
         true)

/-- Embedding of Java_dev_opendata_LogDbReader_nativeScan, which has the
same structure as the LogDb scan but runs against the reader's own storage
connection. -/
def Java_dev_opendata_LogDbReader_nativeScan
    (readerScan : List Nat → Nat → Except String (List LogEntry))
    (handle : Int) (key : List Nat) (start_sequence max_entries : Int) :
    Except JavaError (List JLogEntry) × Bool :=
  match readerScanHandleDispatch handle with
  | .throwNullPointer => (.error .nullPointer, false)
  | .unsafeDeref _ =>
    match readerScan key (i64_as_u64 start_sequence) with
    | .error e => (.error (.nativeError e), true)
    | .ok cursor =>
        (.ok (create_log_entry_array (scanLoop (i64_as_usize max_entries) cursor)),
         true)

/-- Side effects of the close entry point, in program order. -/
inductive CloseEvent
  | engineClose
  | shutdownCompactionRuntime
  | shutdownMainRuntime
  deriving DecidableEq

/-- The parts of a LogHandle relevant to close: the outcome the engine's
awaited async close reports, and whether the two optional runtime fields
hold a runtime (both are populated at creation). -/
structure LogHandleState where
  closeResult : Except String Unit
  hasRuntime : Bool
  hasCompactionRuntime : Bool

/-- Embedding of Java_dev_opendata_LogDb_nativeClose: for a nonzero handle
the engine close is awaited first, its error (if any) is surfaced as a
thrown exception, and then each present runtime is shut down in background
mode unconditionally.  Handle zero does nothing. -/
def Java_dev_opendata_LogDb_nativeClose (handle : Int) (lh : LogHandleState) :
    List CloseEvent × Option JavaError :=
  if handle = 0 then ([], none)
  else
    let thrown : Option JavaError :=
      match lh.closeResult with
      | .ok _ => none
      | .error e => some (.nativeError e)
    let compactionEvents :=
      if lh.hasCompactionRuntime then [CloseEvent.shutdownCompactionRuntime] else []
    let runtimeEvents :=
      if lh.hasRuntime then [CloseEvent.shutdownMainRuntime] else []
    (CloseEvent.engineClose :: (compactionEvents ++ runtimeEvents), thrown)

/-- Rust AwsObjectStoreConfig. -/
structure AwsObjectStoreConfig where
  region : String
  bucket : String
  deriving DecidableEq

/-- Rust LocalObjectStoreConfig. -/
structure LocalObjectStoreConfig where
  path : String
  deriving DecidableEq

/-- Rust ObjectStoreConfig enum. -/
inductive ObjectStoreConfig
  | InMemory
  | Local (cfg : LocalObjectStoreConfig)
  | Aws (cfg : AwsObjectStoreConfig)
  deriving DecidableEq

/-- Rust SlateDbStorageConfig. -/
structure SlateDbStorageConfig where
  path : String
  object_store : ObjectStoreConfig
  settings_path : Option String
  deriving DecidableEq

/-- Rust StorageConfig enum. -/
inductive StorageConfig
  | InMemory
  | SlateDb (cfg : SlateDbStorageConfig)
  deriving DecidableEq

/-- Runtime shape of the Java ObjectStoreConfig argument: one of the known
subclasses carrying its fields, or any other object. -/
inductive JObjectStoreConfig
  | inMemoryStore
  | awsStore (region : String) (bucket : String)
  | localStore (path : String)
  | otherStore
  deriving DecidableEq

/-- Runtime shape of the Java StorageConfig argument. -/
inductive JStorageConfig
  | inMemoryStorage
  | slateDbStorage (path : String) (objectStore : JObjectStoreConfig)
      (settingsPath : Option String)
  | otherStorage
  deriving DecidableEq

/-- Java LogDbConfig object, exposing its storage accessor. -/
structure JLogDbConfig where
  storage : JStorageConfig
  deriving DecidableEq

/-- Embedding of extract_object_store_config: the instanceof chain over the
closed set InMemory, Aws, Local; anything else is an error. -/
def extract_object_store_config :
    JObjectStoreConfig → Except String ObjectStoreConfig
  | .inMemoryStore => .ok .InMemory
  | .awsStore region bucket => .ok (.Aws { region := region, bucket := bucket })
  | .localStore path => .ok (.Local { path := path })
  | .otherStore => .error "Unknown ObjectStoreConfig type"

/-- Embedding of extract_slatedb_config: resolves the nested object store
and assembles the SlateDb storage config; an absent settingsPath is None. -/
def extract_slatedb_config (path : String) (objectStore : JObjectStoreConfig)
    (settingsPath : Option String) : Except String StorageConfig :=
  match extract_object_store_config objectStore with
  | .error e => .error e
  | .ok object_store =>
      .ok (StorageConfig.SlateDb
        { path := path, object_store := object_store,
          settings_path := settingsPath })

/-- Embedding of extract_storage_config: the instanceof chain over the
closed set InMemory, SlateDb; anything else is an error. -/
def extract_storage_config : JStorageConfig → Except String StorageConfig
  | .inMemoryStorage => .ok .InMemory
  | .slateDbStorage path os settings => extract_slatedb_config path os settings
  | .otherStorage => .error "Unknown StorageConfig type"

/-- Storage shapes matching none of the closed variant enumerations, either
at the top level or in the nested object-store position. -/
def unrecognizedStorageVariant : JStorageConfig → Bool
  | .otherStorage => true
  | .slateDbStorage _ JObjectStoreConfig.otherStore _ => true
  | _ => false

/-- Embedding of Java_dev_opendata_LogDb_nativeCreate.  Runtime construction
and the engine build are abstracted as a function from the extracted storage
config to the address of the boxed handle (or a failure); on success the raw
address itself is returned as the jlong handle, with no further
indirection. -/
def Java_dev_opendata_LogDb_nativeCreate
    (build : StorageConfig → Except String Nat)
    (config : JLogDbConfig) : Int × Option JavaError :=
  match extract_storage_config config.storage with
  | .error e => (0, some (.illegalArgument e))
  | .ok storage_config =>
    match build storage_config with
    | .ok addr => (Int.ofNat addr, none)
    | .error e => (0, some (.nativeError e))

/-- Recombining the eight big-endian bytes of a number below 2 ^ 64
recovers the number. -/
theorem beBytesToNat_natToBeBytes8 (n : Nat) (h : n < 2 ^ 64) :
    beBytesToNat (natToBeBytes8 n) = n := by
  simp only [natToBeBytes8, beBytesToNat, List.foldl]
  norm_num
  omega

/-- The encoded header is always exactly eight bytes long. -/
theorem i64_to_be_bytes_length (x : Int) : (i64_to_be_bytes x).length = 8 := rfl

/-- Decoding the header bytes recovers any integer in the i64 range. -/
theorem i64_from_to_be_bytes (x : Int) (h1 : -(2 ^ 63) ≤ x) (h2 : x < 2 ^ 63) :
    i64_from_be_bytes (i64_to_be_bytes x) = x := by
  unfold i64_from_be_bytes i64_to_be_bytes
  rw [beBytesToNat_natToBeBytes8 _ (by omega)]
  split <;> omega

/-- The collection loop keeps exactly the first max entries of the cursor. -/
theorem scanLoop_eq_take (n : Nat) (l : List LogEntry) : scanLoop n l = l.take n := by
  induction n generalizing l with
  | zero => cases l <;> rfl
  | succ n ih =>
    cases l with
    | nil => rfl
    | cons e rest => simp [scanLoop, ih]

/-- A cursor no longer than the limit is drained to exhaustion. -/
theorem scanLoop_drains (n : Nat) (l : List LogEntry) (h : l.length ≤ n) :
    scanLoop n l = l := by
  rw [scanLoop_eq_take]
  exact List.take_of_length_le h

/-- C1: for every i64 timestamp and every byte payload, decoding the
envelope produced by encoding (the 8-byte big-endian header prepended to
the payload) yields exactly the original timestamp and payload. -/
theorem encode_decode_round_trip (ts : Int) (h1 : -(2 ^ 63) ≤ ts)
    (h2 : ts < 2 ^ 63) (p : List Nat) :
    extract_timestamp_and_payload (copy_value_with_timestamp ts p) = (ts, p) := by
  unfold copy_value_with_timestamp extract_timestamp_and_payload
  have hlen : (i64_to_be_bytes ts).length = TIMESTAMP_HEADER_SIZE := rfl
  rw [if_neg (by simp [TIMESTAMP_HEADER_SIZE, i64_to_be_bytes_length]),
    List.take_left' hlen, List.drop_left' hlen, i64_from_to_be_bytes ts h1 h2]

/-- Witness for C1 at the maximum i64 timestamp and a two-byte payload. -/
theorem encode_decode_round_trip_witness :
    extract_timestamp_and_payload
        (copy_value_with_timestamp 9223372036854775807 [104, 105]) =
      (9223372036854775807, [104, 105]) :=
  encode_decode_round_trip 9223372036854775807 (by norm_num) (by norm_num)
    [104, 105]

/-- C2: decode is total; a value of length at least 8 splits at byte 8 into
the big-endian i64 header and the remaining payload (length exactly 8 gives
an empty payload), and a shorter value decodes to timestamp 0 unchanged. -/
theorem decode_total (v : List Nat) :
    (v.length < 8 → extract_timestamp_and_payload v = (0, v)) ∧
    (8 ≤ v.length →
      extract_timestamp_and_payload v =
        (i64_from_be_bytes (v.take 8), v.drop 8)) ∧
    (v.length = 8 → (extract_timestamp_and_payload v).2 = []) := by
  unfold extract_timestamp_and_payload TIMESTAMP_HEADER_SIZE
  refine ⟨fun h => ?_, fun h => ?_, fun h => ?_⟩
  · rw [if_pos h]
  · rw [if_neg (by omega)]
  · rw [if_neg (by omega)]
    simp [List.drop_eq_nil_of_le, h]

/-- Witness for C2: a short value is returned unchanged with timestamp 0,
and a value of length exactly 8 yields an empty payload. -/
theorem decode_total_witness :
    extract_timestamp_and_payload [1, 2, 3] = (0, [1, 2, 3]) ∧
    (extract_timestamp_and_payload [0, 0, 0, 0, 0, 0, 0, 9]).2 = [] :=
  ⟨(decode_total [1, 2, 3]).1 (by norm_num),
   (decode_total [0, 0, 0, 0, 0, 0, 0, 9]).2.2 (by norm_num)⟩

/-- C3: for every non-empty record batch appended through a live handle,
each stored value is that record's own big-endian timestamp header followed
by its unmodified payload (hence every written value has length at least 8),
and on engine success the AppendResult carries the engine-assigned start
sequence unmodified together with the first record's timestamp, whatever the
other records' timestamps are. -/
theorem append_postcondition
    (engineAppend : List Record → Except String Nat)
    (handle : Int) (hh : handle ≠ 0)
    (first : JRecord) (rest : List JRecord) (s : Nat)
    (heng : engineAppend (rust_records (first :: rest)) = .ok s) :
    rust_records (first :: rest) =
      (first :: rest).map (fun r =>
        { key := r.key, value := i64_to_be_bytes r.timestampMs ++ r.value }) ∧
    (∀ r ∈ rust_records (first :: rest), 8 ≤ r.value.length) ∧
    Java_dev_opendata_LogDb_nativeAppend engineAppend handle (first :: rest) =
      (.ok { start_sequence := s, timestamp_ms := first.timestampMs }, true) := by
  refine ⟨rfl, ?_, ?_⟩
  · intro r hr
    simp only [rust_records, List.mem_map] at hr
    obtain ⟨a, -, rfl⟩ := hr
    simp [copy_value_with_timestamp, i64_to_be_bytes_length]
  · simp only [Java_dev_opendata_LogDb_nativeAppend, appendHandleDispatch,
      if_neg hh, heng]

/-- Witness for C3: a two-record batch with distinct timestamps, appended
through handle 1 against an engine assigning start sequence 7. -/
theorem append_postcondition_witness :
    rust_records [⟨[1], [2, 3], 5⟩, ⟨[4], [], -1⟩] =
      ([⟨[1], [2, 3], 5⟩, ⟨[4], [], -1⟩] : List JRecord).map (fun r =>
        { key := r.key, value := i64_to_be_bytes r.timestampMs ++ r.value }) ∧
    (∀ r ∈ rust_records [⟨[1], [2, 3], 5⟩, ⟨[4], [], -1⟩], 8 ≤ r.value.length) ∧
    Java_dev_opendata_LogDb_nativeAppend (fun _ => .ok 7) 1
        [⟨[1], [2, 3], 5⟩, ⟨[4], [], -1⟩] =
      (.ok { start_sequence := 7, timestamp_ms := 5 }, true) :=
  append_postcondition (fun _ => .ok 7) 1 (by norm_num) ⟨[1], [2, 3], 5⟩
    [⟨[4], [], -1⟩] 7 rfl

/-- C4: appending an empty record batch through a live handle fails with the
IllegalArgumentException classification, and the engine append is never
issued, for every engine. -/
theorem append_empty_rejected
    (engineAppend : List Record → Except String Nat)
    (handle : Int) (hh : handle ≠ 0) :
    Java_dev_opendata_LogDb_nativeAppend engineAppend handle [] =
      (.error (.illegalArgument "Records array is empty"), false) := by
  simp only [Java_dev_opendata_LogDb_nativeAppend, appendHandleDispatch,
    if_neg hh]

/-- Witness for C4 at handle 1 with an always-succeeding engine. -/
theorem append_empty_rejected_witness :
    Java_dev_opendata_LogDb_nativeAppend (fun _ => .ok 0) 1 [] =
      (.error (.illegalArgument "Records array is empty"), false) :=
  append_empty_rejected (fun _ => .ok 0) 1 (by norm_num)

/-- C5: scanning through a live handle returns the entries the engine cursor
yields from the start sequence, in cursor order, stopping as soon as the
limit is reached or the cursor is exhausted, each envelope decoded; with
limit 0, an empty sequence is returned without error. -/
theorem scan_postcondition
    (engineScan : List Nat → Nat → Except String (List LogEntry))
    (handle : Int) (hh : handle ≠ 0)
    (key : List Nat) (start_sequence max_entries : Int)
    (cursor : List LogEntry)
    (hcur : engineScan key (i64_as_u64 start_sequence) = .ok cursor) :
    Java_dev_opendata_LogDb_nativeScan engineScan handle key start_sequence
        max_entries =
      (.ok (create_log_entry_array (cursor.take (i64_as_usize max_entries))),
       true) ∧
    Java_dev_opendata_LogDb_nativeScan engineScan handle key start_sequence 0 =
      (.ok [], true) := by
  constructor
  · simp only [Java_dev_opendata_LogDb_nativeScan, scanHandleDispatch,
      if_neg hh, hcur, scanLoop_eq_take]
  · have h0 : i64_as_usize 0 = 0 := rfl
    simp only [Java_dev_opendata_LogDb_nativeScan, scanHandleDispatch,
      if_neg hh, hcur, h0, scanLoop, create_log_entry_array, List.map_nil]

/-- Witness for C5: a one-entry cursor scanned through handle 1 with limit 5
is fully decoded, and limit 0 returns the empty batch. -/
theorem scan_postcondition_witness :
    Java_dev_opendata_LogDb_nativeScan
        (fun _ _ => .ok [⟨3, [1], [0, 0, 0, 0, 0, 0, 0, 42, 9]⟩]) 1 [1] 0 5 =
      (.ok (create_log_entry_array
        (([⟨3, [1], [0, 0, 0, 0, 0, 0, 0, 42, 9]⟩] : List LogEntry).take
          (i64_as_usize 5))), true) ∧
    Java_dev_opendata_LogDb_nativeScan
        (fun _ _ => .ok [⟨3, [1], [0, 0, 0, 0, 0, 0, 0, 42, 9]⟩]) 1 [1] 0 0 =
      (.ok [], true) :=
  scan_postcondition (fun _ _ => .ok [⟨3, [1], [0, 0, 0, 0, 0, 0, 0, 42, 9]⟩])
    1 (by norm_num) [1] 0 5 [⟨3, [1], [0, 0, 0, 0, 0, 0, 0, 42, 9]⟩] rfl

/-- C6: a configuration whose storage variant (or nested object-store
variant) matches none of the closed enumerations fails with a classified
configuration error and produces no handle (the returned jlong is 0), for
every possible build outcome; it is never mapped to a default
configuration. -/
theorem create_rejects_unknown_variant
    (build : StorageConfig → Except String Nat) (config : JLogDbConfig)
    (h : unrecognizedStorageVariant config.storage = true) :
    ∃ msg, Java_dev_opendata_LogDb_nativeCreate build config =
      (0, some (JavaError.illegalArgument msg)) := by
  obtain ⟨storage⟩ := config
  cases storage with
  | inMemoryStorage => simp [unrecognizedStorageVariant] at h
  | otherStorage =>
      exact ⟨"Unknown StorageConfig type", rfl⟩
  | slateDbStorage path os settings =>
      cases os with
      | otherStore => exact ⟨"Unknown ObjectStoreConfig type", rfl⟩
      | inMemoryStore => simp [unrecognizedStorageVariant] at h
      | awsStore region bucket => simp [unrecognizedStorageVariant] at h
      | localStore path => simp [unrecognizedStorageVariant] at h

/-- Witness for C6: an unknown nested object-store variant is rejected even
though the build function would succeed. -/
theorem create_rejects_unknown_variant_witness :
    ∃ msg, Java_dev_opendata_LogDb_nativeCreate (fun _ => .ok 5)
        ⟨JStorageConfig.slateDbStorage "p" JObjectStoreConfig.otherStore none⟩ =
      (0, some (JavaError.illegalArgument msg)) :=
  create_rejects_unknown_variant (fun _ => .ok 5)
    ⟨JStorageConfig.slateDbStorage "p" JObjectStoreConfig.otherStore none⟩ rfl

/-- C7: closing a live handle awaits the engine close first and then shuts
down both runtimes unconditionally; an engine close error is surfaced as a
thrown exception but never prevents the runtime shutdowns. -/
theorem close_ordering (handle : Int) (hh : handle ≠ 0)
    (res : Except String Unit) :
    (Java_dev_opendata_LogDb_nativeClose handle
        { closeResult := res, hasRuntime := true,
          hasCompactionRuntime := true }).1 =
      [CloseEvent.engineClose, CloseEvent.shutdownCompactionRuntime,
       CloseEvent.shutdownMainRuntime] ∧
    (res = .ok () →
      (Java_dev_opendata_LogDb_nativeClose handle
          { closeResult := res, hasRuntime := true,
            hasCompactionRuntime := true }).2 = none) ∧
    (∀ e, res = .error e →
      (Java_dev_opendata_LogDb_nativeClose handle
          { closeResult := res, hasRuntime := true,
            hasCompactionRuntime := true }).2 =
        some (JavaError.nativeError e)) := by
  refine ⟨?_, ?_, ?_⟩
  · simp [Java_dev_opendata_LogDb_nativeClose, if_neg hh]
  · intro hres
    subst hres
    simp [Java_dev_opendata_LogDb_nativeClose, if_neg hh]
  · intro e hres
    subst hres
    simp [Java_dev_opendata_LogDb_nativeClose, if_neg hh]

/-- Witness for C7 at handle 1 with an engine close that reports an error:
both shutdowns still happen, after the engine close, and the error is
surfaced. -/
theorem close_ordering_witness :
    (Java_dev_opendata_LogDb_nativeClose 1
        { closeResult := .error "boom", hasRuntime := true,
          hasCompactionRuntime := true }).1 =
      [CloseEvent.engineClose, CloseEvent.shutdownCompactionRuntime,
       CloseEvent.shutdownMainRuntime] ∧
    (Java_dev_opendata_LogDb_nativeClose 1
        { closeResult := .error "boom", hasRuntime := true,
          hasCompactionRuntime := true }).2 =
      some (JavaError.nativeError "boom") :=
  ⟨(close_ordering 1 (by norm_num) (.error "boom")).1,
   (close_ordering 1 (by norm_num) (.error "boom")).2.2 "boom" rfl⟩

/-- C8 (counterexample): the handle value 1 is live in no process state —
for instance a state with no live resources at all — and yet the append
entry point dispatches it to the unsafe dereference branch instead of
failing a lookup with a reported error: the code performs no slab or
generation check on nonzero handle values. -/
theorem handle_slab_claim_counterexample :
    (1 : Int) ∉ ([] : List Int) ∧
    appendHandleDispatch 1 = HandleDispatch.unsafeDeref 1 ∧
    appendHandleDispatch 1 ≠ HandleDispatch.throwNullPointer := by
  refine ⟨by simp, rfl, by simp [appendHandleDispatch]⟩

/-- C8 (amended): the handle exposed across the boundary is the raw boxed
pointer cast to a jlong — create returns the allocation address itself, with
no slab indirection — and the only validity check at the use sites is the
comparison with zero, so every nonzero handle value, including closed or
corrupted ones, reaches the unsafe dereference branch. -/
theorem handle_is_raw_pointer (handle : Int) (hh : handle ≠ 0) :
    appendHandleDispatch handle = HandleDispatch.unsafeDeref handle ∧
    scanHandleDispatch handle = HandleDispatch.unsafeDeref handle ∧
    readerScanHandleDispatch handle = HandleDispatch.unsafeDeref handle ∧
    (∀ (build : StorageConfig → Except String Nat) (config : JLogDbConfig)
        (storage_config : StorageConfig) (addr : Nat),
      extract_storage_config config.storage = .ok storage_config →
      build storage_config = .ok addr →
      Java_dev_opendata_LogDb_nativeCreate build config =
        (Int.ofNat addr, none)) := by
  refine ⟨by simp [appendHandleDispatch, hh], by simp [scanHandleDispatch, hh],
    by simp [readerScanHandleDispatch, hh], ?_⟩
  intro build config storage_config addr hext hbuild
  simp only [Java_dev_opendata_LogDb_nativeCreate, hext, hbuild]

/-- Witness for the amended C8 at handle 2 and at a successful in-memory
create returning address 5. -/
theorem handle_is_raw_pointer_witness :
    appendHandleDispatch 2 = HandleDispatch.unsafeDeref 2 ∧
    Java_dev_opendata_LogDb_nativeCreate (fun _ => .ok 5)
        ⟨JStorageConfig.inMemoryStorage⟩ = (Int.ofNat 5, none) :=
  ⟨(handle_is_raw_pointer 2 (by norm_num)).1,
   (handle_is_raw_pointer 2 (by norm_num)).2.2.2 (fun _ => .ok 5)
     ⟨JStorageConfig.inMemoryStorage⟩ StorageConfig.InMemory 5 rfl rfl⟩

/-- C9: every entry point guards the zero handle before dereferencing:
append and both scans on handle 0 throw NullPointerException with no engine
interaction, close on handle 0 is a silent no-op, and the NullPointer branch
of each handle guard is taken exactly at zero, so the unsafe dereference
branch is reached only for nonzero handles. -/
theorem zero_handle_guards :
    (∀ (engineAppend : List Record → Except String Nat)
        (records : List JRecord),
      Java_dev_opendata_LogDb_nativeAppend engineAppend 0 records =
        (.error .nullPointer, false)) ∧
    (∀ (engineScan : List Nat → Nat → Except String (List LogEntry))
        (key : List Nat) (start_sequence max_entries : Int),
      Java_dev_opendata_LogDb_nativeScan engineScan 0 key start_sequence
          max_entries =
        (.error .nullPointer, false)) ∧
    (∀ (readerScan : List Nat → Nat → Except String (List LogEntry))
        (key : List Nat) (start_sequence max_entries : Int),
      Java_dev_opendata_LogDbReader_nativeScan readerScan 0 key start_sequence
          max_entries =
        (.error .nullPointer, false)) ∧
    (∀ lh, Java_dev_opendata_LogDb_nativeClose 0 lh = ([], none)) ∧
    (∀ handle : Int,
      appendHandleDispatch handle = HandleDispatch.throwNullPointer ↔
        handle = 0) ∧
    (∀ handle : Int,
      scanHandleDispatch handle = HandleDispatch.throwNullPointer ↔
        handle = 0) ∧
    (∀ handle : Int,
      readerScanHandleDispatch handle = HandleDispatch.throwNullPointer ↔
        handle = 0) := by
  have hguard : ∀ handle : Int,
      (if handle = 0 then HandleDispatch.throwNullPointer
       else HandleDispatch.unsafeDeref handle) =
        HandleDispatch.throwNullPointer ↔ handle = 0 := by
    intro handle
    by_cases hh : handle = 0 <;> simp [hh]
  refine ⟨fun engineAppend records => rfl,
    fun engineScan key start_sequence max_entries => rfl,
    fun readerScan key start_sequence max_entries => rfl,
    fun lh => rfl, hguard, hguard, hguard⟩

/-- C10: negative scan arguments are reinterpreted by wrapping modulo 2 ^ 64:
a negative max_entries m becomes the huge limit m + 2 ^ 64, at least 2 ^ 63,
so the call drains the cursor to exhaustion instead of failing, and a
negative start_sequence becomes a sequence number of at least 2 ^ 63. -/
theorem scan_wrapping_casts
    (max_entries start_sequence : Int)
    (hm1 : -(2 ^ 63) ≤ max_entries) (hm2 : max_entries < 0)
    (hs1 : -(2 ^ 63) ≤ start_sequence) (hs2 : start_sequence < 0)
    (engineScan : List Nat → Nat → Except String (List LogEntry))
    (handle : Int) (hh : handle ≠ 0) (key : List Nat)
    (cursor : List LogEntry) (hlen : cursor.length ≤ 2 ^ 63)
    (hcur : engineScan key (i64_as_u64 start_sequence) = .ok cursor) :
    (i64_as_usize max_entries : Int) = max_entries + 2 ^ 64 ∧
    2 ^ 63 ≤ i64_as_usize max_entries ∧
    2 ^ 63 ≤ i64_as_u64 start_sequence ∧
    Java_dev_opendata_LogDb_nativeScan engineScan handle key start_sequence
        max_entries =
      (.ok (create_log_entry_array cursor), true) := by
  have husize : (i64_as_usize max_entries : Int) = max_entries + 2 ^ 64 := by
    unfold i64_as_usize
    omega
  have hbig : 2 ^ 63 ≤ i64_as_usize max_entries := by
    unfold i64_as_usize
    omega
  have hstart : 2 ^ 63 ≤ i64_as_u64 start_sequence := by
    unfold i64_as_u64
    omega
  refine ⟨husize, hbig, hstart, ?_⟩
  simp only [Java_dev_opendata_LogDb_nativeScan, scanHandleDispatch,
    if_neg hh, hcur, scanLoop_drains _ _ (le_trans hlen hbig)]

/-- Witness for C10 with limit -1 and start -2 on a one-entry cursor: the
effective limit is 2 ^ 64 - 1 and the cursor is drained whole. -/
theorem scan_wrapping_casts_witness :
    (i64_as_usize (-1) : Int) = -1 + 2 ^ 64 ∧
    2 ^ 63 ≤ i64_as_usize (-1) ∧
    2 ^ 63 ≤ i64_as_u64 (-2) ∧
    Java_dev_opendata_LogDb_nativeScan
        (fun _ _ => .ok [⟨0, [7], [9]⟩]) 3 [7] (-2) (-1) =
      (.ok (create_log_entry_array [⟨0, [7], [9]⟩]), true) :=
  scan_wrapping_casts (-1) (-2) (by norm_num) (by norm_num) (by norm_num)
    (by norm_num) (fun _ _ => .ok [⟨0, [7], [9]⟩]) 3 (by norm_num) [7]
    [⟨0, [7], [9]⟩] (by simp) rfl
